import Mathlib

/-
Verification of the blocking-call static analyser
(src/using-asyncio-python/scripts/check_blocking.py).

The embedding models the fragment of the Python AST that the analyser
inspects, the rule registry `RULES`, the scope resolver
`_nodes_inside_sync_context`, the per-file analysis `check_file`, the
reporter `print_findings`, and the exit-code logic of `main`.

Conventions:
* `ast.walk` is breadth-first (a deque popped from the left, extended
  with each node's children); it is modelled by `walkFuel`, a fuelled
  breadth-first traversal whose fuel is the tree size, so that it is
  structurally recursive and computable by the kernel.
* CPython object identity `id(node)` is modelled by an explicit `nid`
  field on every node; the trees built below give distinct `nid`s to
  distinct nodes, as CPython does.
* The Python `set` of excluded ids is modelled by a `List Nat` used
  only through membership, which is set-equivalent.
* The syntax-tree provider (`ast.parse`) is an external collaborator;
  `check_file` takes it as an oracle `parse : String → Except String Node`.
* The filesystem is explicit: a `FileState` is either an OS read error
  or raw bytes, matching what `path.read_text` can encounter.
-/

/-- Callee expression of a Python call node (`node.func`): a simple
identifier (`ast.Name`), an attribute access `object.name`
(`ast.Attribute`, whose `value` is again an expression), or any other
expression form. -/
inductive CalleeExpr where
  | name (id : String)
  | attr (value : CalleeExpr) (attrName : String)
  | otherCallee
deriving DecidableEq, Repr

/-- Kind of a Python AST node, as far as the analyser inspects kinds:
call expressions (`ast.Call`, carrying their callee), synchronous
function definitions (`ast.FunctionDef`), asynchronous function
definitions (`ast.AsyncFunctionDef`), class definitions
(`ast.ClassDef`), and every other node kind. -/
inductive NodeKind where
  | callExpr (func : CalleeExpr)
  | functionDef (name : String)
  | asyncFunctionDef (name : String)
  | classDef (name : String)
  | otherNode
deriving DecidableEq, Repr

/-- A Python AST node: CPython object identity (`id(node)`), kind,
source position (`lineno`, `col_offset`), and child nodes in
`ast.iter_child_nodes` order. -/
inductive Node where
  | mk (nid : Nat) (kind : NodeKind) (lineno : Nat) (colOffset : Nat)
       (children : List Node)

/-- Object identity of a node (`id(node)` in CPython). -/
def Node.nid : Node → Nat
  | .mk i _ _ _ _ => i

/-- Kind tag of a node. -/
def Node.kind : Node → NodeKind
  | .mk _ k _ _ _ => k

/-- Source line of a node (`node.lineno`, 1-based in CPython). -/
def Node.lineno : Node → Nat
  | .mk _ _ l _ _ => l

/-- Source column of a node (`node.col_offset`, 0-based in CPython). -/
def Node.colOffset : Node → Nat
  | .mk _ _ _ c _ => c

/-- Child nodes of a node, in `ast.iter_child_nodes` order. -/
def Node.children : Node → List Node
  | .mk _ _ _ _ ch => ch

/-- The `.name` attribute of a function or class definition node
(meaningless, empty, on other kinds). -/
def Node.name : Node → String
  | .mk _ (.functionDef s) _ _ _ => s
  | .mk _ (.asyncFunctionDef s) _ _ _ => s
  | .mk _ (.classDef s) _ _ _ => s
  | .mk _ _ _ _ _ => ""

/-- `isinstance(node, ast.AsyncFunctionDef)`. -/
def Node.isAsyncFunctionDef (n : Node) : Bool :=
  match n.kind with
  | .asyncFunctionDef _ => true
  | _ => false

/-- `isinstance(node, (ast.FunctionDef, ast.ClassDef))`.  Note that in
CPython `ast.AsyncFunctionDef` is NOT a subclass of `ast.FunctionDef`,
so async definitions do not satisfy this test. -/
def Node.isSyncDefOrClass (n : Node) : Bool :=
  match n.kind with
  | .functionDef _ => true
  | .classDef _ => true
  | _ => false

mutual
/-- Number of nodes in a tree (used as breadth-first traversal fuel). -/
def Node.size : Node → Nat
  | .mk _ _ _ _ ch => 1 + sizeListN ch

/-- Total number of nodes in a forest. -/
def sizeListN : List Node → Nat
  | [] => 0
  | n :: rest => Node.size n + sizeListN rest
end

/-- One fuelled step of `ast.walk`'s breadth-first traversal: the queue
is popped from the left and extended with the popped node's children,
exactly as `ast.walk` does with its `collections.deque`.  Fuel at least
the total size of the queued trees is enough to drain the queue. -/
def walkFuel : Nat → List Node → List Node
  | 0, _ => []
  | _ + 1, [] => []
  | fuel + 1, n :: rest => n :: walkFuel fuel (rest ++ n.children)

/-- `ast.walk(node)`: `node` and all its descendants, in breadth-first
order. -/
def Node.walk (n : Node) : List Node := walkFuel n.size [n]

/-- `_call_matches(node, *name_parts)`: true if `node` is a `Call`
whose callee matches the dotted name — a single part against a simple
`ast.Name` callee, two parts against an `ast.Attribute` callee whose
value is an `ast.Name`. -/
def call_matches (node : Node) (name_parts : List String) : Bool :=
  match node.kind with
  | .callExpr func =>
    match name_parts, func with
    | [p], .name id => id == p
    | [p1, p2], .attr (.name oid) a => oid == p1 && a == p2
    | _, _ => false
  | _ => false

/-- `_is_sync_open`: flags `open()` calls. -/
def is_sync_open (node : Node) : Bool := call_matches node ["open"]

/-- `_is_file_rw`: flags `.read()` / `.write()` / `.readlines()`
attribute calls, whatever the receiver expression is. -/
def is_file_rw (node : Node) : Bool :=
  match node.kind with
  | .callExpr (.attr _ a) => a == "read" || a == "write" || a == "readlines"
  | _ => false

/-- The dataclass `Rule`: identifier, description, remediation hint and
matcher predicate. -/
structure Rule where
  id : String
  description : String
  fix : String
  matcher : Node → Bool

/-- Registry entry ASYNC001 of `RULES`. -/
def RULE_ASYNC001 : Rule :=
  { id := "ASYNC001", description := "requests.get() blocks the event loop",
    fix := "Use aiohttp.ClientSession().get() or httpx.AsyncClient().get()",
    matcher := fun n => call_matches n ["requests", "get"] }

/-- Registry entry ASYNC002 of `RULES`. -/
def RULE_ASYNC002 : Rule :=
  { id := "ASYNC002", description := "requests.post() blocks the event loop",
    fix := "Use aiohttp.ClientSession().post() or httpx.AsyncClient().post()",
    matcher := fun n => call_matches n ["requests", "post"] }

/-- Registry entry ASYNC003 of `RULES`. -/
def RULE_ASYNC003 : Rule :=
  { id := "ASYNC003", description := "requests.put() blocks the event loop",
    fix := "Use aiohttp.ClientSession().put() or httpx.AsyncClient().put()",
    matcher := fun n => call_matches n ["requests", "put"] }

/-- Registry entry ASYNC004 of `RULES`. -/
def RULE_ASYNC004 : Rule :=
  { id := "ASYNC004", description := "requests.delete() blocks the event loop",
    fix := "Use aiohttp.ClientSession().delete() or httpx.AsyncClient().delete()",
    matcher := fun n => call_matches n ["requests", "delete"] }

/-- Registry entry ASYNC005 of `RULES`. -/
def RULE_ASYNC005 : Rule :=
  { id := "ASYNC005", description := "time.sleep() blocks the event loop",
    fix := "Use \x27await asyncio.sleep(seconds)\x27 instead",
    matcher := fun n => call_matches n ["time", "sleep"] }

/-- Registry entry ASYNC006 of `RULES`. -/
def RULE_ASYNC006 : Rule :=
  { id := "ASYNC006", description := "open() is a synchronous file operation",
    fix := "Use \x27async with aiofiles.open(...)\x27 from the aiofiles package",
    matcher := is_sync_open }

/-- Registry entry ASYNC007 of `RULES`. -/
def RULE_ASYNC007 : Rule :=
  { id := "ASYNC007", description := "subprocess.run() blocks the event loop",
    fix := "Use \x27await asyncio.create_subprocess_exec()\x27 or asyncio.create_subprocess_shell()",
    matcher := fun n => call_matches n ["subprocess", "run"] }

/-- Registry entry ASYNC008 of `RULES`. -/
def RULE_ASYNC008 : Rule :=
  { id := "ASYNC008", description := "subprocess.call() blocks the event loop",
    fix := "Use \x27await asyncio.create_subprocess_exec()\x27 instead",
    matcher := fun n => call_matches n ["subprocess", "call"] }

/-- Registry entry ASYNC009 of `RULES`. -/
def RULE_ASYNC009 : Rule :=
  { id := "ASYNC009",
    description := ".read()/.write()/.readlines() on a synchronous file handle",
    fix := "Open the file with aiofiles and use \x27await file.read()\x27 / \x27await file.write()\x27",
    matcher := is_file_rw }

/-- The process-wide rule registry `RULES`, in source order (the nine
entries are named individually above so theorems can refer to them). -/
def RULES : List Rule :=
  [RULE_ASYNC001, RULE_ASYNC002, RULE_ASYNC003, RULE_ASYNC004,
   RULE_ASYNC005, RULE_ASYNC006, RULE_ASYNC007, RULE_ASYNC008,
   RULE_ASYNC009]

/-- The dataclass `Finding`: one reported match with its location and
the enclosing async function it is attributed to. -/
structure Finding where
  file : String
  line : Nat
  col : Nat
  async_func : String
  rule : Rule

/-- `_collect_async_funcs(tree)`: all `async def` nodes in the tree,
including nested ones, in `ast.walk` order. -/
def collect_async_funcs (tree : Node) : List Node :=
  tree.walk.filter Node.isAsyncFunctionDef

/-- `_nodes_inside_sync_context(func_node)`: the ids of all nodes that
are inside a nested sync `def` or `class` (the definition node itself
and its whole subtree).  CPython builds a `set`; the list built here is
used only through membership, which is set-equivalent. -/
def nodes_inside_sync_context (func_node : Node) : List Nat :=
  (func_node.walk.filter Node.isSyncDefOrClass).flatMap fun d =>
    d.walk.map Node.nid

/-- The findings the inner loop of `check_file` appends for one node of
one async function: one `Finding` per registry rule whose matcher fires
on the node, in registry order. -/
def node_findings (rules : List Rule) (path : String)
    (async_func node : Node) : List Finding :=
  (rules.filter fun rule => rule.matcher node).map fun rule =>
    { file := path, line := node.lineno, col := node.colOffset,
      async_func := async_func.name, rule := rule }

/-- The scanning loops of `check_file`, generalized over the registry
(the program instantiates them with the global `RULES`): for every
async function of the tree, compute its excluded-id set, then walk its
subtree, skip excluded nodes (`continue`), and emit the matched
findings. -/
def scan_tree_rules (rules : List Rule) (path : String) (tree : Node) :
    List Finding :=
  (collect_async_funcs tree).flatMap fun async_func =>
    let excluded := nodes_inside_sync_context async_func
    async_func.walk.flatMap fun node =>
      if excluded.contains node.nid then []
      else node_findings rules path async_func node

/-- The analysis `check_file` performs after a successful read and
parse, with the process registry `RULES`. -/
def scan_tree (path : String) (tree : Node) : List Finding :=
  scan_tree_rules RULES path tree

/-- State of a file as the analyser can observe it through
`path.read_text`: either the operating system refuses the read
(`OSError`), or the read yields raw bytes. -/
inductive FileState where
  | ioError (msg : String)
  | bytes (bs : List Nat)

/-- The Unicode replacement character U+FFFD. -/
def replacementChar : Char := Char.ofNat 0xFFFD

/-- Fuelled body of the UTF-8 replacement decoder.  Every step consumes
at least one byte, so fuel equal to the byte count is always enough;
the fuel only makes the recursion structural. -/
def decodeUtf8Fuel : Nat → List Nat → List Char
  | 0, _ => []
  | _ + 1, [] => []
  | fuel + 1, b1 :: rest =>
    if b1 < 0x80 then Char.ofNat b1 :: decodeUtf8Fuel fuel rest
    else if 0xC2 ≤ b1 && b1 ≤ 0xDF then
      match rest with
      | b2 :: rest2 =>
        if 0x80 ≤ b2 && b2 ≤ 0xBF then
          Char.ofNat ((b1 - 0xC0) * 64 + (b2 - 0x80)) :: decodeUtf8Fuel fuel rest2
        else replacementChar :: decodeUtf8Fuel fuel rest
      | [] => replacementChar :: decodeUtf8Fuel fuel rest
    else if 0xE0 ≤ b1 && b1 ≤ 0xEF then
      match rest with
      | b2 :: b3 :: rest3 =>
        if (0x80 ≤ b2 && b2 ≤ 0xBF) && (0x80 ≤ b3 && b3 ≤ 0xBF) then
          Char.ofNat ((b1 - 0xE0) * 4096 + (b2 - 0x80) * 64 + (b3 - 0x80)) ::
            decodeUtf8Fuel fuel rest3
        else replacementChar :: decodeUtf8Fuel fuel rest
      | _ => replacementChar :: decodeUtf8Fuel fuel rest
    else if 0xF0 ≤ b1 && b1 ≤ 0xF4 then
      match rest with
      | b2 :: b3 :: b4 :: rest4 =>
        if ((0x80 ≤ b2 && b2 ≤ 0xBF) && (0x80 ≤ b3 && b3 ≤ 0xBF)) &&
            (0x80 ≤ b4 && b4 ≤ 0xBF) then
          Char.ofNat ((b1 - 0xF0) * 262144 + (b2 - 0x80) * 4096 +
              (b3 - 0x80) * 64 + (b4 - 0x80)) :: decodeUtf8Fuel fuel rest4
        else replacementChar :: decodeUtf8Fuel fuel rest
      | _ => replacementChar :: decodeUtf8Fuel fuel rest
    else replacementChar :: decodeUtf8Fuel fuel rest

/-- Models CPython `bytes.decode("utf-8", errors="replace")`: a total
UTF-8 decoder in which a malformed lead byte, or a lead byte whose
continuation bytes are missing or malformed, yields U+FFFD for the lead
byte and decoding resumes at the next byte.  (Overlong/surrogate
rejection is abstracted away; what matters to the analyser is that
decoding never raises.) -/
def decodeUtf8Replace (bs : List Nat) : List Char :=
  decodeUtf8Fuel bs.length bs

/-- `path.read_text(encoding="utf-8", errors="replace")` wrapped in the
`try/except OSError` of `check_file`: `none` exactly on an OS read
error; bytes always decode (with replacement), so decoding itself never
fails. -/
def read_text (fs : FileState) : Option String :=
  match fs with
  | .ioError _ => none
  | .bytes bs => some (String.mk (decodeUtf8Replace bs))

/-- `check_file(path)`: read the file (an `OSError` is logged and
recovered as an empty finding list), parse it through the tree-provider
oracle `parse` (a `SyntaxError` is logged and recovered as an empty
finding list), then scan the tree. -/
def check_file (parse : String → Except String Node) (path : String)
    (fs : FileState) : List Finding :=
  match read_text fs with
  | none => []
  | some source =>
    match parse source with
    | .error _ => []
    | .ok tree => scan_tree path tree

/-- The accumulation loop of `main`: `all_findings`, the concatenation
of each file's findings in processing order. -/
def run_files (parse : String → Except String Node)
    (files : List (String × FileState)) : List Finding :=
  files.flatMap fun pf => check_file parse pf.1 pf.2

/-- The exit logic at the end of `main`: `sys.exit(1)` when findings
exist and `--exit-zero` is not set, otherwise a normal exit with
code 0. -/
def exit_code (all_findings : List Finding) (exit_zero : Bool) : Nat :=
  if !all_findings.isEmpty && !exit_zero then 1 else 0

/-- Exit code of a whole run of `main` over the given files. -/
def main_exit (parse : String → Except String Node)
    (files : List (String × FileState)) (exit_zero : Bool) : Nat :=
  exit_code (run_files parse files) exit_zero

/-- The two lines `print_findings` prints for one finding: the
diagnostic line `file:line:col: [ruleId] In 'async def name':
description` and the remediation line. -/
def render_finding (f : Finding) : List String :=
  [f.file ++ ":" ++ toString f.line ++ ":" ++ toString f.col ++ ": [" ++
     f.rule.id ++ "] In \x27async def " ++ f.async_func ++ "\x27: " ++
     f.rule.description,
   "  Fix: " ++ f.rule.fix]

/-- `print_findings`: the report lines, two per finding, in finding
order. -/
def print_findings (findings : List Finding) : List String :=
  findings.flatMap render_finding

/-- The full per-finding output of `main`: each file's findings are
printed as soon as the file is checked, so per-file reports are
concatenated in processing order. -/
def main_output (parse : String → Except String Node)
    (files : List (String × FileState)) : List String :=
  files.flatMap fun pf => print_findings (check_file parse pf.1 pf.2)

/-- The report ordering property asserted by the specification for the
findings of one run: whenever one finding precedes another and both
come from the same file, the earlier one has the smaller (or equal)
line number. -/
def findings_file_line_ordered (fs : List Finding) : Prop :=
  ∀ i j : Fin fs.length, i.val < j.val →
    (fs.get i).file = (fs.get j).file → (fs.get i).line ≤ (fs.get j).line

/-- Family of example modules for the nested-async edge case, with the
two function names and the call line as parameters:
```
1  async def <o>():
2      async def <i>():
l          time.sleep(1)
```
The children of the `time.sleep(1)` call node are its `ast.Attribute`
callee (with its `ast.Name` child) and the constant argument. -/
def c1family (o i : String) (l : Nat) : Node :=
  .mk 0 .otherNode 0 0
    [.mk 1 (.asyncFunctionDef o) 1 0
      [.mk 2 (.asyncFunctionDef i) 2 4
        [.mk 3 .otherNode l 8
          [.mk 4 (.callExpr (.attr (.name "time") "sleep")) l 8
            [.mk 5 .otherNode l 8 [.mk 6 .otherNode l 8 []],
             .mk 7 .otherNode l 19 []]]]]]

/-- The instance of `c1family` used as a concrete input:
```
1  async def outer():
2      async def inner():
3          time.sleep(1)
```
-/
def c1tree : Node := c1family "outer" "inner" 3

/-- Example module with blocking calls but zero async functions:
```
1  def worker():
2      open("f")
3      time.sleep(1)
```
-/
def c2tree : Node :=
  .mk 0 .otherNode 0 0
    [.mk 1 (.functionDef "worker") 1 0
      [.mk 2 .otherNode 2 4
        [.mk 3 (.callExpr (.name "open")) 2 4
          [.mk 4 .otherNode 2 9 [], .mk 5 .otherNode 2 14 []]],
       .mk 6 .otherNode 3 4
        [.mk 7 (.callExpr (.attr (.name "time") "sleep")) 3 4
          [.mk 8 .otherNode 3 4 [.mk 9 .otherNode 3 4 []],
           .mk 10 .otherNode 3 15 []]]]]

/-- The end-to-end example module of the specification:
```
1  async def outer():
2      def helper():
3          open("f")
4      helper()
```
-/
def c3tree : Node :=
  .mk 0 .otherNode 0 0
    [.mk 1 (.asyncFunctionDef "outer") 1 0
      [.mk 2 (.functionDef "helper") 2 4
        [.mk 3 .otherNode 3 8
          [.mk 4 (.callExpr (.name "open")) 3 8
            [.mk 5 .otherNode 3 13 [], .mk 6 .otherNode 3 18 []]]],
       .mk 7 .otherNode 4 4
        [.mk 8 (.callExpr (.name "helper")) 4 4
          [.mk 9 .otherNode 4 4 []]]]]

/-- The end-to-end example module of the specification that does have
findings:
```
1  async def fetch():
2      requests.get(url)
3      time.sleep(1)
```
-/
def fetch_tree : Node :=
  .mk 0 .otherNode 0 0
    [.mk 1 (.asyncFunctionDef "fetch") 1 0
      [.mk 2 .otherNode 2 4
        [.mk 3 (.callExpr (.attr (.name "requests") "get")) 2 4
          [.mk 4 .otherNode 2 4 [.mk 5 .otherNode 2 4 []],
           .mk 6 .otherNode 2 17 []]],
       .mk 7 .otherNode 3 4
        [.mk 8 (.callExpr (.attr (.name "time") "sleep")) 3 4
          [.mk 9 .otherNode 3 4 [.mk 10 .otherNode 3 4 []],
           .mk 11 .otherNode 3 15 []]]]]

/-- Example module in which breadth-first emission order differs from
line order — the `open` call sits one nesting level deeper than the
`time.sleep` call, so `ast.walk` reaches it later although it is on an
earlier line:
```
1  async def f():
2      x = [open("a")]
3      time.sleep(1)
```
-/
def c8tree : Node :=
  .mk 0 .otherNode 0 0
    [.mk 1 (.asyncFunctionDef "f") 1 0
      [.mk 2 .otherNode 2 4
        [.mk 3 .otherNode 2 4 [],
         .mk 4 .otherNode 2 8
          [.mk 5 (.callExpr (.name "open")) 2 9
            [.mk 6 .otherNode 2 14 [], .mk 7 .otherNode 2 19 []]]],
       .mk 8 .otherNode 3 4
        [.mk 9 (.callExpr (.attr (.name "time") "sleep")) 3 4
          [.mk 10 .otherNode 3 4 [.mk 11 .otherNode 3 4 []],
           .mk 12 .otherNode 3 15 []]]]]

/-- A registry rule for witness runs: matches `open(...)` calls via the
dotted-name helper. -/
def demo_rule_a : Rule :=
  { id := "DEMO1", description := "open() call, matched by name",
    fix := "n/a", matcher := fun n => call_matches n ["open"] }

/-- A second, distinct registry rule for witness runs that matches
exactly the same nodes as `demo_rule_a`. -/
def demo_rule_b : Rule :=
  { id := "DEMO2", description := "open() call, matched by predicate",
    fix := "n/a", matcher := is_sync_open }

/-- A two-rule registry in which both rules match an `open(...)` call
node. -/
def demo_rules : List Rule := [demo_rule_a, demo_rule_b]

/-- An `open("a")` call node, as in `async def g(): open("a")`. -/
def demo_open_call : Node :=
  .mk 50 (.callExpr (.name "open")) 2 4
    [.mk 51 .otherNode 2 9 [], .mk 52 .otherNode 2 14 []]

/-- The enclosing async function of `demo_open_call`. -/
def demo_async_g : Node :=
  .mk 49 (.asyncFunctionDef "g") 1 0
    [.mk 53 .otherNode 2 4 [demo_open_call]]

/-- The first finding the analyser produces on `fetch_tree`:
the `requests.get` call on line 2, attributed to `fetch`. -/
def w3_finding : Finding :=
  { file := "w.py", line := 2, col := 4, async_func := "fetch",
    rule := RULE_ASYNC001 }

/-- A tree-provider oracle for witness runs: parses the marker source
`"OK"` to `fetch_tree` and reports a syntax error on everything else. -/
def demo_parse : String → Except String Node := fun s =>
  if s = "OK" then Except.ok fetch_tree else Except.error "invalid syntax"

/-- A readable file whose bytes decode to the marker source `"OK"`. -/
def ok_file : FileState := FileState.bytes [79, 75]

/-- Length of a `flatMap` as the sum of the lengths of the pieces. -/
theorem length_flatMap_sum {α β : Type} (l : List α) (f : α → List β) :
    (l.flatMap f).length = (l.map fun a => (f a).length).sum := by
  induction l with
  | nil => rfl
  | cons a t ih => simp [List.flatMap_cons, ih]

/-- Summing a function that is zero on excluded elements equals summing
it over the filtered list. -/
theorem sum_map_ite {α : Type} (l : List α) (c : α → Bool) (h : α → Nat) :
    (l.map fun x => if c x then 0 else h x).sum =
      ((l.filter fun x => !c x).map h).sum := by
  induction l with
  | nil => rfl
  | cons a t ih =>
    by_cases hc : c a
    · simp [hc, ih]
    · simp [hc, ih]

/-- Inversion principle for the analysis engine: every finding comes
from some enumerated async function and some non-excluded node of its
walk on which some registry rule fired. -/
theorem mem_scan_tree_rules {rules : List Rule} {path : String}
    {tree : Node} {f : Finding}
    (h : f ∈ scan_tree_rules rules path tree) :
    ∃ af n, af ∈ collect_async_funcs tree ∧ n ∈ af.walk ∧
      (nodes_inside_sync_context af).contains n.nid = false ∧
      ∃ r ∈ rules, r.matcher n = true ∧
        f = { file := path, line := n.lineno, col := n.colOffset,
              async_func := af.name, rule := r } := by
  simp only [scan_tree_rules, List.mem_flatMap] at h
  obtain ⟨af, haf, h⟩ := h
  obtain ⟨n, hn, h⟩ := h
  rcases hb : (nodes_inside_sync_context af).contains n.nid
  · rw [hb] at h
    simp only [if_neg Bool.false_ne_true] at h
    simp only [node_findings, List.mem_map, List.mem_filter] at h
    obtain ⟨r, ⟨hr, hm⟩, rfl⟩ := h
    exact ⟨af, n, haf, hn, hb, r, hr, hm, rfl⟩
  · rw [hb] at h
    simp at h

/-- C1 counterexample: in the module
`async def outer(): async def inner(): time.sleep(1)` the single
blocking call produces TWO findings, one attributed to `outer` and one
to `inner` — not exactly one attributed to the innermost function.
The scope resolver excludes only `ast.FunctionDef`/`ast.ClassDef`
subtrees, and a nested `ast.AsyncFunctionDef` is neither. -/
theorem C1_counterexample :
    (scan_tree "ex.py" c1tree).map (fun f => f.async_func) =
      ["outer", "inner"] ∧
    ¬ (scan_tree "ex.py" c1tree).length = 1 := by
  exact ⟨by decide, by decide⟩

set_option maxHeartbeats 2000000 in
/-- C1 (amended): a blocking call inside a nested async function
produces one finding per enclosing async function — for a call nested
in two async functions, exactly two findings at the call's position,
the first attributed to the outer and the second to the inner function,
because nested async bodies are not excluded from the outer pass. -/
theorem C1_amended_thm (p o i : String) (l : Nat) :
    (scan_tree p (c1family o i l)).map
        (fun f => (f.file, f.line, f.col, f.async_func, f.rule.id)) =
      [(p, l, 8, o, "ASYNC005"), (p, l, 8, i, "ASYNC005")] := rfl

/-- C2: a file whose tree contains no async function definition yields
no findings, whatever blocking calls its synchronous code contains. -/
theorem C2_thm (path : String) (tree : Node)
    (h : ∀ n ∈ tree.walk, n.isAsyncFunctionDef = false) :
    scan_tree path tree = [] := by
  have hc : collect_async_funcs tree = [] := by
    simp only [collect_async_funcs, List.filter_eq_nil_iff]
    intro a ha
    simp [h a ha]
  simp [scan_tree, scan_tree_rules, hc]

/-- C2 witness: the sync-only module `def worker(): open("f");
time.sleep(1)` has no async function and analysis returns no
findings. -/
theorem C2_witness :
    (∀ n ∈ c2tree.walk, n.isAsyncFunctionDef = false) ∧
      scan_tree "w2.py" c2tree = [] :=
  ⟨by decide, C2_thm "w2.py" c2tree (by decide)⟩

/-- C3: every finding is triggered by a node of the analysed async
function's walk that is not inside any nested synchronous function or
class definition; and the specification's end-to-end example
`async def outer(): def helper(): open("f"); helper()` yields zero
findings. -/
theorem C3_thm :
    (∀ (path : String) (tree : Node) (f : Finding),
        f ∈ scan_tree path tree →
        ∃ af n, af ∈ collect_async_funcs tree ∧ n ∈ af.walk ∧
          f.line = n.lineno ∧ f.col = n.colOffset ∧
          f.async_func = af.name ∧
          ∀ d ∈ af.walk, d.isSyncDefOrClass = true → n ∉ d.walk) ∧
    scan_tree "ex3.py" c3tree = [] := by
  constructor
  · intro path tree f h
    obtain ⟨af, n, haf, hn, hex, r, hr, hm, rfl⟩ := mem_scan_tree_rules h
    refine ⟨af, n, haf, hn, rfl, rfl, rfl, ?_⟩
    intro d hd hsync hmem
    have hin : n.nid ∈ nodes_inside_sync_context af := by
      simp only [nodes_inside_sync_context, List.mem_flatMap]
      refine ⟨d, ?_, List.mem_map_of_mem _ hmem⟩
      simp [List.mem_filter, hd, hsync]
    have : (nodes_inside_sync_context af).contains n.nid = true := by
      simpa using hin
    rw [hex] at this
    cases this
  · exact List.eq_nil_of_length_eq_zero (by decide)

/-- C3 witness: on the module `async def fetch(): requests.get(url);
time.sleep(1)` the first finding exists and satisfies the C3
invariant. -/
theorem C3_witness :
    w3_finding ∈ scan_tree "w.py" fetch_tree ∧
    ∃ af n, af ∈ collect_async_funcs fetch_tree ∧ n ∈ af.walk ∧
      w3_finding.line = n.lineno ∧ w3_finding.col = n.colOffset ∧
      w3_finding.async_func = af.name ∧
      ∀ d ∈ af.walk, d.isSyncDefOrClass = true → n ∉ d.walk := by
  have hmem : w3_finding ∈ scan_tree "w.py" fetch_tree := List.Mem.head _
  exact ⟨hmem, C3_thm.1 "w.py" fetch_tree w3_finding hmem⟩

/-- C4: the number of findings of a file equals the number of
(non-excluded node, rule) pairs on which the matcher fired, summed over
the enumerated async functions; and whenever exactly two registry rules
match one node, exactly two findings are produced for that node, both
carrying the node's (line, column). -/
theorem C4_thm :
    (∀ (path : String) (tree : Node),
        (scan_tree path tree).length =
          ((collect_async_funcs tree).map fun af =>
            ((af.walk.filter fun n =>
                !(nodes_inside_sync_context af).contains n.nid).map fun n =>
              (RULES.filter fun r => r.matcher n).length).sum).sum) ∧
    (∀ (rules : List Rule) (path : String) (af n : Node),
        (rules.filter fun r => r.matcher n).length = 2 →
        (node_findings rules path af n).length = 2 ∧
        ∀ f ∈ node_findings rules path af n,
          f.line = n.lineno ∧ f.col = n.colOffset) := by
  constructor
  · intro path tree
    rw [scan_tree, scan_tree_rules, length_flatMap_sum]
    congr 1
    apply List.map_congr_left
    intro af _
    rw [length_flatMap_sum]
    have hpt : ∀ n : Node,
        (if (nodes_inside_sync_context af).contains n.nid then
            ([] : List Finding)
          else node_findings RULES path af n).length =
        if (nodes_inside_sync_context af).contains n.nid then 0
        else (RULES.filter fun r => r.matcher n).length := by
      intro n
      by_cases hc : n.nid ∈ nodes_inside_sync_context af
      · simp [hc]
      · simp [hc, node_findings]
    rw [List.map_congr_left fun n _ => hpt n, sum_map_ite]
  · intro rules path af n h
    constructor
    · simp [node_findings, h]
    · intro f hf
      simp only [node_findings, List.mem_map, List.mem_filter] at hf
      obtain ⟨r, _, rfl⟩ := hf
      exact ⟨rfl, rfl⟩

/-- C4 witness: a registry of two distinct rules that both match the
`open("a")` call produces exactly two findings for that node, both at
the node's position. -/
theorem C4_witness :
    (demo_rules.filter fun r => r.matcher demo_open_call).length = 2 ∧
    (node_findings demo_rules "w4.py" demo_async_g demo_open_call).length
        = 2 ∧
    ∀ f ∈ node_findings demo_rules "w4.py" demo_async_g demo_open_call,
      f.line = demo_open_call.lineno ∧ f.col = demo_open_call.colOffset := by
  refine ⟨by decide, ?_, ?_⟩
  · exact (C4_thm.2 demo_rules "w4.py" demo_async_g demo_open_call
      (by decide)).1
  · exact (C4_thm.2 demo_rules "w4.py" demo_async_g demo_open_call
      (by decide)).2

/-- C5: every finding's (line, column) is the position of the node that
triggered it, its rule's matcher fires on that node, and its
enclosing-function name is the name of an async function definition of
the tree whose walk (syntactic subtree) contains the node. -/
theorem C5_thm (path : String) (tree : Node) (f : Finding)
    (h : f ∈ scan_tree path tree) :
    ∃ af n, af ∈ tree.walk ∧ af.isAsyncFunctionDef = true ∧ n ∈ af.walk ∧
      f.line = n.lineno ∧ f.col = n.colOffset ∧ f.async_func = af.name ∧
      f.rule.matcher n = true := by
  obtain ⟨af, n, haf, hn, _, r, _, hm, rfl⟩ := mem_scan_tree_rules h
  simp only [collect_async_funcs, List.mem_filter] at haf
  exact ⟨af, n, haf.1, haf.2, hn, rfl, rfl, rfl, hm⟩

/-- C5 witness: the first finding on the `fetch` example satisfies the
position and attribution invariant. -/
theorem C5_witness :
    w3_finding ∈ scan_tree "w.py" fetch_tree ∧
    ∃ af n, af ∈ fetch_tree.walk ∧ af.isAsyncFunctionDef = true ∧
      n ∈ af.walk ∧ w3_finding.line = n.lineno ∧
      w3_finding.col = n.colOffset ∧ w3_finding.async_func = af.name ∧
      w3_finding.rule.matcher n = true := by
  have hmem : w3_finding ∈ scan_tree "w.py" fetch_tree := List.Mem.head _
  exact ⟨hmem, C5_thm "w.py" fetch_tree w3_finding hmem⟩

/-- C6: when a file fails with a read (I/O) error or a parse (syntax)
error, it contributes an empty finding list, the run over the remaining
files is unchanged, and the exit code is the same as if the failing
file were absent. -/
theorem C6_thm (parse : String → Except String Node) (path : String)
    (fs : FileState) (pre post : List (String × FileState))
    (h : read_text fs = none ∨
         ∃ s e, read_text fs = some s ∧ parse s = Except.error e) :
    check_file parse path fs = [] ∧
    run_files parse (pre ++ (path, fs) :: post) =
      run_files parse (pre ++ post) ∧
    ∀ z : Bool,
      main_exit parse (pre ++ (path, fs) :: post) z =
        main_exit parse (pre ++ post) z := by
  have hcf : check_file parse path fs = [] := by
    rcases h with h | ⟨s, e, hs, he⟩
    · simp [check_file, h]
    · simp [check_file, hs, he]
  have hrun : run_files parse (pre ++ (path, fs) :: post) =
      run_files parse (pre ++ post) := by
    simp [run_files, List.flatMap_append, List.flatMap_cons, hcf]
  refine ⟨hcf, hrun, fun z => ?_⟩
  rw [main_exit, main_exit, hrun]

/-- C6 witness: a run over a readable file, an unreadable file and a
second readable file equals the run without the unreadable file, for
findings and exit code alike. -/
theorem C6_witness :
    read_text (FileState.ioError "Permission denied") = none ∧
    check_file demo_parse "b.py" (FileState.ioError "Permission denied")
        = [] ∧
    run_files demo_parse
        [("a.py", ok_file), ("b.py", FileState.ioError "Permission denied"),
         ("c.py", ok_file)] =
      run_files demo_parse [("a.py", ok_file), ("c.py", ok_file)] ∧
    ∀ z : Bool,
      main_exit demo_parse
          [("a.py", ok_file), ("b.py", FileState.ioError "Permission denied"),
           ("c.py", ok_file)] z =
        main_exit demo_parse [("a.py", ok_file), ("c.py", ok_file)] z :=
  ⟨rfl, C6_thm demo_parse "b.py" (FileState.ioError "Permission denied")
    [("a.py", ok_file)] [("c.py", ok_file)] (Or.inl rfl)⟩

/-- C7: the process exits with 0 exactly when the run produced no
findings or the exit-zero flag is set, and with 1 exactly when findings
exist and the flag is not set. -/
theorem C7_thm (parse : String → Except String Node)
    (files : List (String × FileState)) (z : Bool) :
    (main_exit parse files z = 0 ↔
      run_files parse files = [] ∨ z = true) ∧
    (main_exit parse files z = 1 ↔
      run_files parse files ≠ [] ∧ z = false) := by
  rw [main_exit, exit_code]
  by_cases h : run_files parse files = []
  · cases z <;> simp [h]
  · cases z <;> simp [h]

/-- C8 counterexample: on the module
`async def f(): x = [open("a")]; time.sleep(1)` the engine emits the
line-3 `time.sleep` finding before the line-2 `open` finding (the
breadth-first walk reaches the shallower node first), so the report is
not in within-file line order. -/
theorem C8_counterexample :
    (scan_tree "c8.py" c8tree).map (fun f => (f.file, f.line)) =
      [("c8.py", 3), ("c8.py", 2)] ∧
    ¬ findings_file_line_ordered (scan_tree "c8.py" c8tree) := by
  refine ⟨by decide, fun hord => ?_⟩
  have h01 := hord ⟨0, by decide⟩ ⟨1, by decide⟩ (by decide) (by decide)
  exact absurd h01 (by decide)

/-- C8 (amended): the report has one diagnostic line plus one
remediation line per finding, in the order findings are produced;
per-file outputs are concatenated in file processing order (so findings
of an earlier file precede those of a later file), and the whole output
is the rendering of the aggregated finding list — whose within-file
order is the engine's breadth-first emission order, not necessarily
line order. -/
theorem C8_thm :
    (∀ (f : Finding) (fs : List Finding),
        print_findings (f :: fs) = render_finding f ++ print_findings fs ∧
        (render_finding f).length = 2) ∧
    (∀ (parse : String → Except String Node)
        (files1 files2 : List (String × FileState)),
        main_output parse (files1 ++ files2) =
          main_output parse files1 ++ main_output parse files2) ∧
    (∀ (parse : String → Except String Node)
        (files : List (String × FileState)),
        main_output parse files = print_findings (run_files parse files)) := by
  refine ⟨fun f fs => ⟨rfl, rfl⟩, ?_, ?_⟩
  · intro parse files1 files2
    simp [main_output, List.flatMap_append]
  · intro parse files
    induction files with
    | nil => rfl
    | cons a t ih =>
      show print_findings (check_file parse a.1 a.2) ++ main_output parse t =
        print_findings (check_file parse a.1 a.2 ++ run_files parse t)
      rw [ih, print_findings, print_findings, print_findings,
        List.flatMap_append]

/-- C9: the file read/write rule ASYNC009 matches every call whose
callee is an attribute access named `read`, `write` or `readlines`,
whatever the receiver expression is — the receiver is never
inspected. -/
theorem C9_thm (k line col : Nat) (v : CalleeExpr) (a : String)
    (ch : List Node)
    (h : a = "read" ∨ a = "write" ∨ a = "readlines") :
    ∃ r ∈ RULES, r.id = "ASYNC009" ∧
      r.matcher (Node.mk k (NodeKind.callExpr (CalleeExpr.attr v a))
        line col ch) = true := by
  refine ⟨RULE_ASYNC009, by simp [RULES], rfl, ?_⟩
  rcases h with rfl | rfl | rfl <;> rfl

/-- C9 witness: a `.read()` call on the arbitrary chained receiver
`obj.stream` is matched by ASYNC009. -/
theorem C9_witness :
    ("read" = "read" ∨ "read" = "write" ∨ "read" = "readlines") ∧
    ∃ r ∈ RULES, r.id = "ASYNC009" ∧
      r.matcher (Node.mk 70 (NodeKind.callExpr (CalleeExpr.attr
        (CalleeExpr.attr (CalleeExpr.name "obj") "stream") "read"))
        5 4 []) = true :=
  ⟨Or.inl rfl,
   C9_thm 70 5 4 (CalleeExpr.attr (CalleeExpr.name "obj") "stream")
     "read" [] (Or.inl rfl)⟩

/-- C10: reading fails only on an OS I/O error — bytes always decode
(with replacement), a file of bytes always proceeds to parsing and
analysis, and a concrete invalid-UTF-8 file decodes to a replacement
character and is analysed. -/
theorem C10_thm :
    (∀ fs : FileState,
        read_text fs = none ↔ ∃ m, fs = FileState.ioError m) ∧
    (∀ bs : List Nat,
        read_text (FileState.bytes bs) =
          some (String.mk (decodeUtf8Replace bs))) ∧
    (∀ (parse : String → Except String Node) (path : String)
        (bs : List Nat),
        check_file parse path (FileState.bytes bs) =
          match parse (String.mk (decodeUtf8Replace bs)) with
          | .error _ => []
          | .ok tree => scan_tree path tree) ∧
    read_text (FileState.bytes [255, 65]) =
      some (String.mk [replacementChar, Char.ofNat 65]) := by
  refine ⟨?_, fun bs => rfl, fun parse path bs => rfl, by decide⟩
  intro fs
  cases fs with
  | ioError m => simp [read_text]
  | bytes bs => simp [read_text]
